import Mathlib

/-!
# etagger: the inference configuration holder

A verification development for `inference/cc/include/Config.h`.

The header declares one class, `Config`, with six scalar data members, six
inline getters, one inline setter and two constructors.  Three data members
(`chr_dim`, `pos_dim`, `etc_dim`) carry default member initialisers; the other
three (`class_size`, `word_length`, `use_crf`) are declared without one.

Embedding choices.

* A C++ `int` is an `Int`.  The class performs no arithmetic on any member, so
  the width of `int` plays no role: every `int` value is an `Int`, and each
  statement below quantified over `Int` covers every `int` argument.
* A data member declared without an initialiser holds no determinate value
  until it is assigned.  Such a member is a `Slot`: either `unset` or `set v`.
* The member functions are not `const`, so each one is embedded as a state
  transformer: a getter returns its result together with the object after the
  call, and the `void` setter returns the object after the call.
* The two constructor bodies live outside the header; they are modelled
  separately and marked as such.
* Statements about two objects use a program state that maps the address of
  an object to its storage; there the member functions take `this` and are
  translated from the same bodies, and they agree with the single-object
  embedding on the object they are called on.
-/

namespace Etagger

/-! ## Data model -/

/-- Content of a data member declared without an initialiser: `unset` until a
value is assigned to it, `set v` afterwards. -/
inductive Slot (α : Type) where
  | unset : Slot α
  | set (v : α) : Slot α
  deriving DecidableEq, Repr

/-- Whether a slot holds an assigned value. -/
def Slot.isSet {α : Type} : Slot α → Bool
  | Slot.unset => false
  | Slot.set _ => true

/-- The private data members of `class Config`, in declaration order
(`Config.h`, lines 20-25). -/
structure Config where
  chr_dim : Int
  pos_dim : Int
  etc_dim : Int
  class_size : Slot Int
  word_length : Slot Int
  use_crf : Slot Bool
  deriving DecidableEq, Repr

/-- The object as the default member initialisers of the class body leave it
before any constructor body runs: `int chr_dim = 50; int pos_dim = 6;
int etc_dim = 9;` and no initialiser for `class_size`, `word_length`,
`use_crf`. -/
def Config.memberInit : Config :=
  { chr_dim := 50
    pos_dim := 6
    etc_dim := 9
    class_size := Slot.unset
    word_length := Slot.unset
    use_crf := Slot.unset }

/-! ## Constructors -/

/-- Modelled from the spec: the body of `Config::Config()` is only declared in
the header.  The spec says this path sets `chr_dim`/`pos_dim`/`etc_dim` to
their fixed defaults (50, 6, 9), gives `word_length` and `use_crf` no explicit
value, and leaves `class_size` unset at construction. -/
def Config.Config_default : Config :=
  Config.memberInit

/-- Modelled from the spec: the body of `Config::Config(int, bool)` is only
declared in the header.  The spec says this path sets
`chr_dim`/`pos_dim`/`etc_dim` to the fixed defaults, sets `word_length` and
`use_crf` from the arguments, and leaves `class_size` unset at construction. -/
def Config.Config_args (word_length : Int) (use_crf : Bool) : Config :=
  { Config.memberInit with
    word_length := Slot.set word_length
    use_crf := Slot.set use_crf }

/-! ## Member functions (`Config.h`, lines 9-15) -/

/-- `int GetChrDim() { return chr_dim; }` -/
def Config.GetChrDim (self : Config) : Int × Config :=
  (self.chr_dim, self)

/-- `int GetPosDim() { return pos_dim; }` -/
def Config.GetPosDim (self : Config) : Int × Config :=
  (self.pos_dim, self)

/-- `int GetEtcDim() { return etc_dim; }` -/
def Config.GetEtcDim (self : Config) : Int × Config :=
  (self.etc_dim, self)

/-- `void SetClassSize(int class_size) { this->class_size = class_size; }` -/
def Config.SetClassSize (self : Config) (class_size : Int) : Config :=
  { self with class_size := Slot.set class_size }

/-- `int GetClassSize() { return class_size; }` -/
def Config.GetClassSize (self : Config) : Slot Int × Config :=
  (self.class_size, self)

/-- `int GetWordLength() { return word_length; }` -/
def Config.GetWordLength (self : Config) : Slot Int × Config :=
  (self.word_length, self)

/-- `bool GetUseCRF() { return use_crf; }` -/
def Config.GetUseCRF (self : Config) : Slot Bool × Config :=
  (self.use_crf, self)

/-! ## The public interface as a set of operations -/

/-- What a call of a public member function hands back to its caller. -/
inductive Ret where
  | void : Ret
  | int (v : Slot Int) : Ret
  | bool (v : Slot Bool) : Ret
  deriving DecidableEq, Repr

/-- The six getters of the class. -/
inductive Getter where
  | GetChrDim
  | GetPosDim
  | GetEtcDim
  | GetClassSize
  | GetWordLength
  | GetUseCRF
  deriving DecidableEq, Repr

/-- The public member functions that can be called on a constructed object. -/
inductive Op where
  | get (g : Getter) : Op
  | SetClassSize (c : Int) : Op
  deriving DecidableEq, Repr

/-- Call a getter: the returned value and the object after the call. -/
def Getter.call (g : Getter) (self : Config) : Ret × Config :=
  match g with
  | Getter.GetChrDim => (Ret.int (Slot.set self.GetChrDim.1), self.GetChrDim.2)
  | Getter.GetPosDim => (Ret.int (Slot.set self.GetPosDim.1), self.GetPosDim.2)
  | Getter.GetEtcDim => (Ret.int (Slot.set self.GetEtcDim.1), self.GetEtcDim.2)
  | Getter.GetClassSize => (Ret.int self.GetClassSize.1, self.GetClassSize.2)
  | Getter.GetWordLength => (Ret.int self.GetWordLength.1, self.GetWordLength.2)
  | Getter.GetUseCRF => (Ret.bool self.GetUseCRF.1, self.GetUseCRF.2)

/-- Call any public member function: the returned value and the object after
the call. -/
def Op.call (op : Op) (self : Config) : Ret × Config :=
  match op with
  | Op.get g => g.call self
  | Op.SetClassSize c => (Ret.void, self.SetClassSize c)

/-- The object after a sequence of calls, made in list order. -/
def Config.run (self : Config) (ops : List Op) : Config :=
  ops.foldl (fun st op => (op.call st).2) self

/-- The object after a sequence of `SetClassSize` calls, made in list order. -/
def Config.setMany (self : Config) (cs : List Int) : Config :=
  cs.foldl Config.SetClassSize self

/-! ## Several objects

A program can hold several `Config` objects.  Its state maps the address of
an object to the storage of that object's six members.  Every member function
receives the address of the object it is called on as `this`, and reads or
writes the program state only where its body says so; none of the six members
is declared `static`, so `this->m` designates member `m` of the one object at
`this`.  Storage that a constructor does not assign keeps what it held. -/

/-- The storage of the `Config` objects of a program, by address. -/
abbrev Heap : Type := Nat → Config

/-- Modelled from the spec: `Config::Config(int, bool)` run on the storage at
`this`; its body is only declared in the header.  The default member
initialisers of the header write `chr_dim`, `pos_dim`, `etc_dim` (50, 6, 9);
the spec says the body sets `word_length` and `use_crf` from the arguments and
does not set `class_size`, whose storage is therefore left as it was. -/
def Heap.Config_args (h : Heap) (this : Nat) (word_length : Int) (use_crf : Bool) : Heap :=
  Function.update h this
    { h this with
      chr_dim := 50
      pos_dim := 6
      etc_dim := 9
      word_length := Slot.set word_length
      use_crf := Slot.set use_crf }

/-- `int GetChrDim() { return chr_dim; }` called on the object at `this`. -/
def Heap.GetChrDim (h : Heap) (this : Nat) : Int × Heap :=
  ((h this).chr_dim, h)

/-- `int GetPosDim() { return pos_dim; }` called on the object at `this`. -/
def Heap.GetPosDim (h : Heap) (this : Nat) : Int × Heap :=
  ((h this).pos_dim, h)

/-- `int GetEtcDim() { return etc_dim; }` called on the object at `this`. -/
def Heap.GetEtcDim (h : Heap) (this : Nat) : Int × Heap :=
  ((h this).etc_dim, h)

/-- `void SetClassSize(int class_size) { this->class_size = class_size; }`
called on the object at `this`. -/
def Heap.SetClassSize (h : Heap) (this : Nat) (class_size : Int) : Heap :=
  Function.update h this { h this with class_size := Slot.set class_size }

/-- `int GetClassSize() { return class_size; }` called on the object at
`this`. -/
def Heap.GetClassSize (h : Heap) (this : Nat) : Slot Int × Heap :=
  ((h this).class_size, h)

/-- `int GetWordLength() { return word_length; }` called on the object at
`this`. -/
def Heap.GetWordLength (h : Heap) (this : Nat) : Slot Int × Heap :=
  ((h this).word_length, h)

/-- `bool GetUseCRF() { return use_crf; }` called on the object at `this`. -/
def Heap.GetUseCRF (h : Heap) (this : Nat) : Slot Bool × Heap :=
  ((h this).use_crf, h)

/-- Call a getter on the object at `this`: the returned value and the program
state after the call. -/
def Heap.callGetter (g : Getter) (h : Heap) (this : Nat) : Ret × Heap :=
  match g with
  | Getter.GetChrDim => (Ret.int (Slot.set (Heap.GetChrDim h this).1), (Heap.GetChrDim h this).2)
  | Getter.GetPosDim => (Ret.int (Slot.set (Heap.GetPosDim h this).1), (Heap.GetPosDim h this).2)
  | Getter.GetEtcDim => (Ret.int (Slot.set (Heap.GetEtcDim h this).1), (Heap.GetEtcDim h this).2)
  | Getter.GetClassSize => (Ret.int (Heap.GetClassSize h this).1, (Heap.GetClassSize h this).2)
  | Getter.GetWordLength => (Ret.int (Heap.GetWordLength h this).1, (Heap.GetWordLength h this).2)
  | Getter.GetUseCRF => (Ret.bool (Heap.GetUseCRF h this).1, (Heap.GetUseCRF h this).2)

/-- Call any public member function on the object at `this`. -/
def Heap.call (op : Op) (h : Heap) (this : Nat) : Ret × Heap :=
  match op with
  | Op.get g => Heap.callGetter g h this
  | Op.SetClassSize c => (Ret.void, Heap.SetClassSize h this c)

/-- The program state after a sequence of calls, each on the object whose
address it is paired with, made in list order. -/
def Heap.run (h : Heap) (calls : List (Nat × Op)) : Heap :=
  calls.foldl (fun st c => (Heap.call c.2 st c.1).2) h

/-- The program state after `Config(word_length, use_crf)` has run for the
object at `i` and, with the same arguments, for the object at `j`, followed by
the given calls. -/
def Heap.twoInstances (h : Heap) (i j : Nat) (word_length : Int) (use_crf : Bool)
    (calls : List (Nat × Op)) : Heap :=
  Heap.run (Heap.Config_args (Heap.Config_args h i word_length use_crf) j word_length use_crf)
    calls

/-- The members that `Config(int, bool)` and the default member initialisers
assign: all but `class_size`. -/
def Config.assignedMembers (s : Config) : Int × Int × Int × Slot Int × Slot Bool :=
  (s.chr_dim, s.pos_dim, s.etc_dim, s.word_length, s.use_crf)

/-- A program state before any construction, with stale content in the storage
at address 0 and never-assigned storage elsewhere. -/
def Heap.sample : Heap :=
  fun p =>
    if p = 0 then
      { chr_dim := 1, pos_dim := 2, etc_dim := 3, class_size := Slot.set 99,
        word_length := Slot.set 7, use_crf := Slot.set false }
    else
      { chr_dim := 0, pos_dim := 0, etc_dim := 0, class_size := Slot.unset,
        word_length := Slot.unset, use_crf := Slot.unset }

/-! ## Supporting lemmas -/

theorem SetClassSize_chr_dim (s : Config) (c : Int) :
    (s.SetClassSize c).chr_dim = s.chr_dim := rfl

theorem SetClassSize_pos_dim (s : Config) (c : Int) :
    (s.SetClassSize c).pos_dim = s.pos_dim := rfl

theorem SetClassSize_etc_dim (s : Config) (c : Int) :
    (s.SetClassSize c).etc_dim = s.etc_dim := rfl

theorem SetClassSize_word_length (s : Config) (c : Int) :
    (s.SetClassSize c).word_length = s.word_length := rfl

theorem SetClassSize_use_crf (s : Config) (c : Int) :
    (s.SetClassSize c).use_crf = s.use_crf := rfl

theorem SetClassSize_class_size (s : Config) (c : Int) :
    (s.SetClassSize c).class_size = Slot.set c := rfl

theorem Getter_call_snd (g : Getter) (s : Config) : (g.call s).2 = s := by
  cases g <;> rfl

theorem setMany_dims (cs : List Int) (s : Config) :
    (s.setMany cs).chr_dim = s.chr_dim ∧ (s.setMany cs).pos_dim = s.pos_dim ∧
      (s.setMany cs).etc_dim = s.etc_dim := by
  induction cs generalizing s with
  | nil => exact ⟨rfl, rfl, rfl⟩
  | cons c cs ih =>
    have h := ih (s.SetClassSize c)
    simpa [Config.setMany, List.foldl] using h

theorem Heap_callGetter_snd (g : Getter) (h : Heap) (p : Nat) :
    (Heap.callGetter g h p).2 = h := by
  cases g <;> rfl

theorem Heap_callGetter_fst (g : Getter) (h : Heap) (p : Nat) :
    (Heap.callGetter g h p).1 = (g.call (h p)).1 := by
  cases g <;> rfl

theorem Heap_SetClassSize_self (h : Heap) (p : Nat) (c : Int) :
    Heap.SetClassSize h p c p = (h p).SetClassSize c := by
  unfold Heap.SetClassSize
  rw [Function.update_same]
  rfl

theorem Heap_SetClassSize_other (h : Heap) (p q : Nat) (c : Int) (hqp : q ≠ p) :
    Heap.SetClassSize h p c q = h q := by
  unfold Heap.SetClassSize
  exact Function.update_noteq hqp _ _

theorem Heap_Config_args_self (h : Heap) (p : Nat) (w : Int) (crf : Bool) :
    (Heap.Config_args h p w crf p).assignedMembers = (50, 6, 9, Slot.set w, Slot.set crf) := by
  unfold Heap.Config_args
  rw [Function.update_same]
  rfl

theorem Heap_Config_args_other (h : Heap) (p q : Nat) (w : Int) (crf : Bool) (hqp : q ≠ p) :
    Heap.Config_args h p w crf q = h q := by
  unfold Heap.Config_args
  exact Function.update_noteq hqp _ _

theorem Heap_Config_args_fresh (h : Heap) (p : Nat) (w : Int) (crf : Bool)
    (hp : (h p).class_size = Slot.unset) :
    Heap.Config_args h p w crf p = Config.Config_args w crf := by
  unfold Heap.Config_args
  rw [Function.update_same]
  simp [Config.Config_args, Config.memberInit, hp]

theorem Heap_call_self (op : Op) (h : Heap) (p : Nat) :
    (Heap.call op h p).1 = (op.call (h p)).1 ∧ (Heap.call op h p).2 p = (op.call (h p)).2 := by
  cases op with
  | get g =>
    refine ⟨Heap_callGetter_fst g h p, ?_⟩
    show (Heap.callGetter g h p).2 p = (g.call (h p)).2
    rw [Heap_callGetter_snd, Getter_call_snd]
  | SetClassSize c => exact ⟨rfl, Heap_SetClassSize_self h p c⟩

theorem Heap_call_assigned (op : Op) (h : Heap) (p q : Nat) :
    ((Heap.call op h p).2 q).assignedMembers = (h q).assignedMembers := by
  cases op with
  | get g =>
    show ((Heap.callGetter g h p).2 q).assignedMembers = (h q).assignedMembers
    rw [Heap_callGetter_snd]
  | SetClassSize c =>
    show ((Heap.SetClassSize h p c) q).assignedMembers = (h q).assignedMembers
    by_cases hqp : q = p
    · subst hqp
      rw [Heap_SetClassSize_self]
      rfl
    · rw [Heap_SetClassSize_other h p q c hqp]

theorem Heap_run_assigned (calls : List (Nat × Op)) (h : Heap) (q : Nat) :
    ((Heap.run h calls) q).assignedMembers = (h q).assignedMembers := by
  induction calls generalizing h with
  | nil => rfl
  | cons c calls ih =>
    have step := ih (Heap.call c.2 h c.1).2
    have one := Heap_call_assigned c.2 h c.1 q
    exact step.trans one

theorem twoInstances_assigned (h : Heap) (i j : Nat) (w : Int) (crf : Bool)
    (calls : List (Nat × Op)) :
    ((Heap.twoInstances h i j w crf calls) i).assignedMembers
        = (50, 6, 9, Slot.set w, Slot.set crf) ∧
    ((Heap.twoInstances h i j w crf calls) j).assignedMembers
        = (50, 6, 9, Slot.set w, Slot.set crf) := by
  unfold Heap.twoInstances
  constructor
  · rw [Heap_run_assigned]
    by_cases hij : i = j
    · subst hij
      exact Heap_Config_args_self _ _ _ _
    · rw [Heap_Config_args_other _ j i w crf hij]
      exact Heap_Config_args_self _ _ _ _
  · rw [Heap_run_assigned]
    exact Heap_Config_args_self _ _ _ _

theorem call_keeps_set (op : Op) (s : Config) (h : s.class_size.isSet = true) :
    (op.call s).2.class_size.isSet = true := by
  cases op with
  | get g => simpa [Op.call, Getter_call_snd] using h
  | SetClassSize c => rfl

theorem run_keeps_set (ops : List Op) (s : Config) (h : s.class_size.isSet = true) :
    (s.run ops).class_size.isSet = true := by
  induction ops generalizing s with
  | nil => exact h
  | cons op ops ih => exact ih (op.call s).2 (call_keeps_set op s h)

/-! ## The claims -/

/-- Claim C1: for every Config instance, whether built by Config() or by
Config(word_length, use_crf), and after any sequence of SetClassSize calls,
GetChrDim() returns 50, GetPosDim() returns 6 and GetEtcDim() returns 9. -/
theorem C1_fixed_dims (w : Int) (crf : Bool) (cs : List Int) :
    ((Config.Config_default.setMany cs).GetChrDim.1 = 50 ∧
      (Config.Config_default.setMany cs).GetPosDim.1 = 6 ∧
      (Config.Config_default.setMany cs).GetEtcDim.1 = 9) ∧
    (((Config.Config_args w crf).setMany cs).GetChrDim.1 = 50 ∧
      ((Config.Config_args w crf).setMany cs).GetPosDim.1 = 6 ∧
      ((Config.Config_args w crf).setMany cs).GetEtcDim.1 = 9) := by
  obtain ⟨a1, a2, a3⟩ := setMany_dims cs Config.Config_default
  obtain ⟨b1, b2, b3⟩ := setMany_dims cs (Config.Config_args w crf)
  refine ⟨⟨?_, ?_, ?_⟩, ⟨?_, ?_, ?_⟩⟩
  · exact a1.trans rfl
  · exact a2.trans rfl
  · exact a3.trans rfl
  · exact b1.trans rfl
  · exact b2.trans rfl
  · exact b3.trans rfl

/-- Claim C2: for every Config state and all integers c and c2, immediately
after SetClassSize(c), GetClassSize() returns c; and after SetClassSize(c)
followed by SetClassSize(c2), GetClassSize() returns c2 (last write wins). -/
theorem C2_set_then_get (s : Config) (c c2 : Int) :
    (s.SetClassSize c).GetClassSize.1 = Slot.set c ∧
    ((s.SetClassSize c).SetClassSize c2).GetClassSize.1 = Slot.set c2 :=
  ⟨rfl, rfl⟩

/-- Claim C3: for every integer w at least 0 and every boolean crf, a Config
constructed with Config(w, crf) has GetWordLength() equal to w and GetUseCRF()
equal to crf exactly, with no clamping or transformation; the boundary case
w = 0, crf = false is the witness. -/
theorem C3_constructor_args (w : Int) (crf : Bool) (_hw : 0 ≤ w) :
    (Config.Config_args w crf).GetWordLength.1 = Slot.set w ∧
    (Config.Config_args w crf).GetUseCRF.1 = Slot.set crf :=
  ⟨rfl, rfl⟩

/-- Witness for C3 at the boundary case: Config(0, false) reports word length 0
and CRF flag false. -/
theorem C3_constructor_args_witness :
    (0 : Int) ≤ 0 ∧
    ((Config.Config_args 0 false).GetWordLength.1 = Slot.set 0 ∧
      (Config.Config_args 0 false).GetUseCRF.1 = Slot.set false) :=
  ⟨le_refl 0, C3_constructor_args 0 false (le_refl 0)⟩

/-- Claim C4: for every Config state and every integer c, SetClassSize(c)
changes only class_size: the values returned by GetChrDim, GetPosDim,
GetEtcDim, GetWordLength and GetUseCRF after the call equal the values they
returned before it. -/
theorem C4_SetClassSize_frame (s : Config) (c : Int) :
    (s.SetClassSize c).GetChrDim.1 = s.GetChrDim.1 ∧
    (s.SetClassSize c).GetPosDim.1 = s.GetPosDim.1 ∧
    (s.SetClassSize c).GetEtcDim.1 = s.GetEtcDim.1 ∧
    (s.SetClassSize c).GetWordLength.1 = s.GetWordLength.1 ∧
    (s.SetClassSize c).GetUseCRF.1 = s.GetUseCRF.1 :=
  ⟨rfl, rfl, rfl, rfl, rfl⟩

/-- Claim C5: every getter (GetChrDim, GetPosDim, GetEtcDim, GetClassSize,
GetWordLength, GetUseCRF) is side-effect free: for every Config state the
object after the call is the object before it, field for field, so any getter
called again afterwards returns the same value. -/
theorem C5_getters_pure (s : Config) :
    (s.GetChrDim.2 = s ∧ s.GetPosDim.2 = s ∧ s.GetEtcDim.2 = s ∧
      s.GetClassSize.2 = s ∧ s.GetWordLength.2 = s ∧ s.GetUseCRF.2 = s) ∧
    (∀ g : Getter,
      (g.call s).2.chr_dim = s.chr_dim ∧ (g.call s).2.pos_dim = s.pos_dim ∧
      (g.call s).2.etc_dim = s.etc_dim ∧ (g.call s).2.class_size = s.class_size ∧
      (g.call s).2.word_length = s.word_length ∧ (g.call s).2.use_crf = s.use_crf) ∧
    (∀ g g2 : Getter, (g2.call (g.call s).2).1 = (g2.call s).1) := by
  refine ⟨⟨rfl, rfl, rfl, rfl, rfl, rfl⟩, ?_, ?_⟩
  · intro g
    rw [Getter_call_snd]
    exact ⟨rfl, rfl, rfl, rfl, rfl, rfl⟩
  · intro g g2
    rw [Getter_call_snd]

/-- Claim C6: for every integer w and boolean crf, two Config instances (two
distinct objects, on storage with any earlier content) both constructed with
Config(w, crf) return equal values from GetChrDim, GetPosDim, GetEtcDim,
GetWordLength and GetUseCRF, right after construction and after any calls of
member functions on any objects; and calling SetClassSize on one of them sets
the class size of that one and does not change what any getter of the other
returns. -/
theorem C6_two_instances (h : Heap) (i j : Nat) (w : Int) (crf : Bool)
    (calls : List (Nat × Op)) (c : Int) (hij : i ≠ j) :
    ((Heap.GetChrDim (Heap.twoInstances h i j w crf calls) i).1 =
        (Heap.GetChrDim (Heap.twoInstances h i j w crf calls) j).1 ∧
      (Heap.GetPosDim (Heap.twoInstances h i j w crf calls) i).1 =
        (Heap.GetPosDim (Heap.twoInstances h i j w crf calls) j).1 ∧
      (Heap.GetEtcDim (Heap.twoInstances h i j w crf calls) i).1 =
        (Heap.GetEtcDim (Heap.twoInstances h i j w crf calls) j).1 ∧
      (Heap.GetWordLength (Heap.twoInstances h i j w crf calls) i).1 =
        (Heap.GetWordLength (Heap.twoInstances h i j w crf calls) j).1 ∧
      (Heap.GetUseCRF (Heap.twoInstances h i j w crf calls) i).1 =
        (Heap.GetUseCRF (Heap.twoInstances h i j w crf calls) j).1) ∧
    ((Heap.GetClassSize (Heap.SetClassSize (Heap.twoInstances h i j w crf calls) i c) i).1 =
        Slot.set c ∧
      ∀ g : Getter,
        (Heap.callGetter g (Heap.SetClassSize (Heap.twoInstances h i j w crf calls) i c) j).1 =
          (Heap.callGetter g (Heap.twoInstances h i j w crf calls) j).1) ∧
    ((Heap.GetClassSize (Heap.SetClassSize (Heap.twoInstances h i j w crf calls) j c) j).1 =
        Slot.set c ∧
      ∀ g : Getter,
        (Heap.callGetter g (Heap.SetClassSize (Heap.twoInstances h i j w crf calls) j c) i).1 =
          (Heap.callGetter g (Heap.twoInstances h i j w crf calls) i).1) := by
  obtain ⟨hi, hj⟩ := twoInstances_assigned h i j w crf calls
  have hboth := hi.trans hj.symm
  refine ⟨⟨?_, ?_, ?_, ?_, ?_⟩, ⟨?_, ?_⟩, ⟨?_, ?_⟩⟩
  · exact congrArg (fun t => t.1) hboth
  · exact congrArg (fun t => t.2.1) hboth
  · exact congrArg (fun t => t.2.2.1) hboth
  · exact congrArg (fun t => t.2.2.2.1) hboth
  · exact congrArg (fun t => t.2.2.2.2) hboth
  · show (Heap.SetClassSize _ i c i).class_size = Slot.set c
    rw [Heap_SetClassSize_self]
    rfl
  · intro g
    rw [Heap_callGetter_fst, Heap_callGetter_fst, Heap_SetClassSize_other _ i j c (Ne.symm hij)]
  · show (Heap.SetClassSize _ j c j).class_size = Slot.set c
    rw [Heap_SetClassSize_self]
    rfl
  · intro g
    rw [Heap_callGetter_fst, Heap_callGetter_fst, Heap_SetClassSize_other _ j i c hij]

/-- Witness for C6: on storage with stale content, the objects at 0 and 1 are
both built with Config(10, true); the object at 1 then gets SetClassSize(5) and
the object at 0 is read once.  Both report word length 10, and after
SetClassSize(17) on the object at 0 that object reports class size 17 while
the object at 1 still reports class size 5 and word length 10. -/
theorem C6_two_instances_witness :
    (0 : Nat) ≠ 1 ∧
    (Heap.GetWordLength
        (Heap.twoInstances Heap.sample 0 1 10 true
          [(1, Op.SetClassSize 5), (0, Op.get Getter.GetClassSize)]) 0).1 = Slot.set 10 ∧
    (Heap.GetClassSize
        (Heap.SetClassSize
          (Heap.twoInstances Heap.sample 0 1 10 true
            [(1, Op.SetClassSize 5), (0, Op.get Getter.GetClassSize)]) 0 17) 0).1 =
      Slot.set 17 ∧
    (Heap.callGetter Getter.GetClassSize
        (Heap.SetClassSize
          (Heap.twoInstances Heap.sample 0 1 10 true
            [(1, Op.SetClassSize 5), (0, Op.get Getter.GetClassSize)]) 0 17) 1).1 =
      Ret.int (Slot.set 5) ∧
    (Heap.callGetter Getter.GetWordLength
        (Heap.SetClassSize
          (Heap.twoInstances Heap.sample 0 1 10 true
            [(1, Op.SetClassSize 5), (0, Op.get Getter.GetClassSize)]) 0 17) 1).1 =
      Ret.int (Slot.set 10) :=
  ⟨by decide,
    ((C6_two_instances Heap.sample 0 1 10 true
      [(1, Op.SetClassSize 5), (0, Op.get Getter.GetClassSize)] 17
      (by decide)).1.2.2.2.1).trans (by decide),
    (C6_two_instances Heap.sample 0 1 10 true
      [(1, Op.SetClassSize 5), (0, Op.get Getter.GetClassSize)] 17 (by decide)).2.1.1,
    ((C6_two_instances Heap.sample 0 1 10 true
      [(1, Op.SetClassSize 5), (0, Op.get Getter.GetClassSize)] 17 (by decide)).2.1.2
      Getter.GetClassSize).trans (by decide),
    ((C6_two_instances Heap.sample 0 1 10 true
      [(1, Op.SetClassSize 5), (0, Op.get Getter.GetClassSize)] 17 (by decide)).2.1.2
      Getter.GetWordLength).trans (by decide)⟩

/-- Claim C7: no operation of Config signals an error: SetClassSize accepts
every integer c (zero and negative values included) with no range validation
and stores it unchanged, and every getter completes and returns a value of its
result type, for every Config state. -/
theorem C7_no_errors (s : Config) (c : Int) :
    ((Op.SetClassSize c).call s = (Ret.void, s.SetClassSize c) ∧
      (s.SetClassSize c).class_size = Slot.set c) ∧
    ((s.SetClassSize 0).GetClassSize.1 = Slot.set 0 ∧
      (s.SetClassSize (-1)).GetClassSize.1 = Slot.set (-1)) ∧
    (∀ g : Getter, ∃ v : Ret, g.call s = (v, s) ∧ v ≠ Ret.void) := by
  refine ⟨⟨rfl, rfl⟩, ⟨rfl, rfl⟩, ?_⟩
  intro g
  cases g
  · exact ⟨Ret.int (Slot.set s.chr_dim), rfl, by intro h; cases h⟩
  · exact ⟨Ret.int (Slot.set s.pos_dim), rfl, by intro h; cases h⟩
  · exact ⟨Ret.int (Slot.set s.etc_dim), rfl, by intro h; cases h⟩
  · exact ⟨Ret.int s.class_size, rfl, by intro h; cases h⟩
  · exact ⟨Ret.int s.word_length, rfl, by intro h; cases h⟩
  · exact ⟨Ret.bool s.use_crf, rfl, by intro h; cases h⟩

/-- Claim C8: with class_size modelled as unset or set to a value, a freshly
constructed Config (by either constructor) has class_size unset; the only
operation that moves it to set is SetClassSize (which always does); and once
it is set, no sequence of Config operations (getters or further SetClassSize
calls) returns it to unset. -/
theorem C8_class_size_one_way :
    (Config.Config_default.class_size = Slot.unset ∧
      ∀ (w : Int) (crf : Bool), (Config.Config_args w crf).class_size = Slot.unset) ∧
    (∀ (s : Config) (op : Op), s.class_size.isSet = false →
      (op.call s).2.class_size.isSet = true → ∃ c : Int, op = Op.SetClassSize c) ∧
    (∀ (s : Config) (c : Int), ((Op.SetClassSize c).call s).2.class_size = Slot.set c) ∧
    (∀ (s : Config) (ops : List Op), s.class_size.isSet = true →
      (s.run ops).class_size.isSet = true) := by
  refine ⟨⟨rfl, fun _ _ => rfl⟩, ?_, fun _ _ => rfl, fun s ops h => run_keeps_set ops s h⟩
  intro s op h0 h1
  cases op with
  | get g =>
    simp only [Op.call, Getter_call_snd] at h1
    rw [h0] at h1
    cases h1
  | SetClassSize c => exact ⟨c, rfl⟩

/-- Witness for C8: Config(10, true) followed by SetClassSize(17) has
class_size set, and it is still set after a getter, a second SetClassSize and
another getter; and from the fresh Config(10, true) the call that set it is a
SetClassSize call. -/
theorem C8_class_size_one_way_witness :
    ((Config.Config_args 10 true).SetClassSize 17).class_size.isSet = true ∧
    ((((Config.Config_args 10 true).SetClassSize 17).run
      [Op.get Getter.GetClassSize, Op.SetClassSize (-3),
        Op.get Getter.GetUseCRF]).class_size.isSet = true) ∧
    (Config.Config_args 10 true).class_size.isSet = false ∧
    (∃ c : Int, Op.SetClassSize 17 = Op.SetClassSize c) :=
  ⟨rfl,
    C8_class_size_one_way.2.2.2 ((Config.Config_args 10 true).SetClassSize 17)
      [Op.get Getter.GetClassSize, Op.SetClassSize (-3), Op.get Getter.GetUseCRF] rfl,
    rfl,
    C8_class_size_one_way.2.1 (Config.Config_args 10 true) (Op.SetClassSize 17) rfl rfl⟩

/-- Claim C9: a Config built by the no-argument constructor Config() has
chr_dim, pos_dim and etc_dim set to 50, 6 and 9, while word_length and use_crf
are given no explicit value by that path: they are unset, not defaulted to 0
and false. -/
theorem C9_default_constructor :
    (Config.Config_default.chr_dim = 50 ∧ Config.Config_default.pos_dim = 6 ∧
      Config.Config_default.etc_dim = 9) ∧
    (Config.Config_default.word_length = Slot.unset ∧
      Config.Config_default.use_crf = Slot.unset) ∧
    (Config.Config_default.GetWordLength.1 ≠ Slot.set 0 ∧
      Config.Config_default.GetUseCRF.1 ≠ Slot.set false) := by
  refine ⟨⟨rfl, rfl, rfl⟩, ⟨rfl, rfl⟩, ?_, ?_⟩
  · intro h; cases h
  · intro h; cases h

/-- Claim C10: as an equation on whole Config states, for every state s and
all integers c1, c2, applying SetClassSize(c1) then SetClassSize(c2) to s
yields exactly the same state as applying SetClassSize(c2) alone; in
particular SetClassSize(c) is idempotent. -/
theorem C10_SetClassSize_absorbs (s : Config) (c1 c2 : Int) :
    (s.SetClassSize c1).SetClassSize c2 = s.SetClassSize c2 ∧
    (s.SetClassSize c1).SetClassSize c1 = s.SetClassSize c1 :=
  ⟨rfl, rfl⟩

end Etagger
